import Mathlib

/-!
Shallow embedding of the py_bots repository (src/long_bot.py and
src/signal_bot.py): the rolling-window sample histories, the per-cycle
percentage-change computations, the long-signal evaluator, the
emoji-marker alert formatting, and (modelled from the spec, since the
repository hardcodes its symbol list) the instrument-universe refresh.

Python values that may be a float or a failure sentinel (`None`, `"N/A"`,
a missing dict key) are embedded as `Option ℚ`; Python expressions that
can raise (`TypeError` on arithmetic with a sentinel, `ZeroDivisionError`)
are embedded in `Except String`.
-/

/-- A Python dict from horizon label to an optional percentage, as an
association list: a key mapped to Python `None` is `(k, none)`, a missing
key is absence from the list. -/
abbrev ChangeSet := List (String × Option ℚ)

/-- Three decimal digits, zero-padded on the left (the fractional part of
Python `"\x7b:.3f\x7d"` formatting). -/
def pad3 (n : Nat) : String :=
  if n < 10 then "00" ++ toString n
  else if n < 100 then "0" ++ toString n
  else toString n

/-- Fixed-point rendering of a rational with three decimals, modelling
Python `"\x7b:.3f\x7d"` on a float (ties are rounded half-up here; the claims
proved below never depend on tie behaviour). -/
def fmt3 (q : ℚ) : String :=
  let m : ℤ := round (|q| * 1000)
  (if q < 0 then "-" else "") ++ toString (m / 1000) ++ "." ++ pad3 (m % 1000).toNat

namespace LongBot

/-- src/long_bot.py `calculate_change_with_emoji`: `None` renders as
`"N/A"`, a positive change gets the green (up) marker, a negative change
the red (down) marker, zero the white (neutral) marker. -/
def calculate_change_with_emoji (change_value : Option ℚ) : String :=
  match change_value with
  | none => "N/A"
  | some v =>
    if v > 0 then "🟩" ++ fmt3 v ++ "%"
    else if v < 0 then "🟥" ++ fmt3 v ++ "%"
    else "⬜0.000%"

/-- `all(change is not None and change < 0 for change in d.values())`. -/
def allNegative (d : ChangeSet) : Bool :=
  d.all fun p => match p.2 with
    | some q => decide (q < 0)
    | none => false

/-- `change is not None and change < 0` for a single optional value. -/
def isNeg (v : Option ℚ) : Bool :=
  match v with
  | some q => decide (q < 0)
  | none => false

/-- `d.get("5m") is not None and d["5m"] > t`. -/
def thresholdCheck (d : ChangeSet) (t : ℚ) : Bool :=
  match d.lookup "5m" with
  | some (some q) => decide (q > t)
  | _ => false

/-- src/long_bot.py line 188: the OI condition of `generate_signal`. -/
def oi_condition (oi_changes : ChangeSet) : Bool :=
  allNegative oi_changes && thresholdCheck oi_changes (3/2)

/-- src/long_bot.py line 193: the price condition of `generate_signal`. -/
def price_condition_1 (price_changes : ChangeSet) : Bool :=
  allNegative price_changes && thresholdCheck price_changes (13/10)

/-- src/long_bot.py line 198: the volume condition of `generate_signal`. -/
def volume_condition (volume_changes : ChangeSet) : Bool :=
  allNegative volume_changes && thresholdCheck volume_changes 12

/-- The numeric content of the signal message built by `generate_signal`
(TP1 = TP2 = TP3 in the source, so one take-profit field suffices). -/
structure Signal where
  symbol : String
  price : ℚ
  stop_loss : ℚ
  take_profit : ℚ
deriving DecidableEq, Repr

/-- src/long_bot.py `generate_signal`: emits a signal when the OI
condition holds together with the price or volume condition; formatting
the message with `current_price = None` would raise a `TypeError`. -/
def generate_signal (symbol : String) (current_price : Option ℚ)
    (oi_changes price_changes volume_changes : ChangeSet) :
    Except String (Option Signal) :=
  if oi_condition oi_changes
      && (price_condition_1 price_changes || volume_condition volume_changes) then
    match current_price with
    | some p =>
      let stop_loss := p * (98/100)
      let risk := p - stop_loss
      let take_profit := p + 2 * risk
      .ok (some ⟨symbol, p, stop_loss, take_profit⟩)
    | none => .error "TypeError"
  else
    .ok none

/-- `collections.deque(maxlen := cap).append`: the new element goes to the
back; the front element is evicted when the capacity is exceeded. -/
def dequeAppend (cap : Nat) (h : List α) (x : α) : List α :=
  let h2 := h ++ [x]
  if cap < h2.length then h2.drop (h2.length - cap) else h2

/-- Python negative indexing `h[-k]`. -/
def negIdx (h : List α) (k : Nat) : Option α :=
  h[h.length - k]?

/-- One history-based change line of `monitor_pairs`:
`((cur - h[-k]) / h[-k]) * 100 if len(h) >= k else None`, where `h` is the
post-append history and `cur` the just-appended value.  Arithmetic on a
sentinel (`None` price, `"N/A"` volume) raises `TypeError`; a zero
baseline raises `ZeroDivisionError`. -/
def pyChange (h : List (Option ℚ)) (cur : Option ℚ) (k : Nat) :
    Except String (Option ℚ) :=
  if k ≤ h.length then
    match cur, negIdx h k with
    | some c, some (some b) =>
      if b = 0 then .error "ZeroDivisionError"
      else .ok (some ((c - b) / b * 100))
    | _, _ => .error "TypeError"
  else
    .ok none

/-- src/long_bot.py line 259: the OI dict handed to `generate_signal`;
the `"1m"` key is populated with the 5-minute figure. -/
def mk_oi_changes (oi_5m oi_15m oi_1h oi_24h : Option ℚ) : ChangeSet :=
  [("1m", oi_5m), ("5m", oi_5m), ("15m", oi_15m), ("1h", oi_1h), ("24h", oi_24h)]

/-- Results of the per-symbol fetch calls at the top of `monitor_pairs`:
`get_open_interest_change` returns `None` on failure, `get_price_data`
returns an empty dict (→ `none`), `get_volume` returns `"N/A"` (→ `none`). -/
structure FetchResults where
  oi_5m : Option ℚ
  oi_15m : Option ℚ
  oi_1h : Option ℚ
  oi_24h : Option ℚ
  price_data : Option (ℚ × ℚ)
  volume : Option ℚ
deriving DecidableEq, Repr

/-- One evaluation pass of `monitor_pairs` for a single symbol, given the
fetch results and the prior price/volume histories; returns the updated
histories and the (optional) generated signal, or the exception the pass
raises. -/
def monitorStep (symbol : String) (f : FetchResults)
    (ph vh : List (Option ℚ)) :
    Except String (List (Option ℚ) × List (Option ℚ) × Option Signal) := do
  let current_price := f.price_data.map Prod.fst
  let ph2 := dequeAppend 60 ph current_price
  let price_change_1m ← pyChange ph2 current_price 2
  let price_change_5m ← pyChange ph2 current_price 5
  let price_change_15m ← pyChange ph2 current_price 15
  let price_change_1h ← pyChange ph2 current_price 60
  let price_change_24h := f.price_data.map Prod.snd
  let current_volume := f.volume
  let vh2 := dequeAppend 60 vh current_volume
  let volume_change_1m ← pyChange vh2 current_volume 2
  let volume_change_5m ← pyChange vh2 current_volume 5
  let volume_change_15m ← pyChange vh2 current_volume 15
  let volume_change_1h ← pyChange vh2 current_volume 60
  let oi_changes := mk_oi_changes f.oi_5m f.oi_15m f.oi_1h f.oi_24h
  let price_changes : ChangeSet :=
    [("1m", price_change_1m), ("5m", price_change_5m), ("15m", price_change_15m),
     ("1h", price_change_1h), ("24h", price_change_24h)]
  let volume_changes : ChangeSet :=
    [("1m", volume_change_1m), ("5m", volume_change_5m), ("15m", volume_change_15m),
     ("1h", volume_change_1h)]
  let signal ← generate_signal symbol current_price oi_changes price_changes volume_changes
  return (ph2, vh2, signal)

/-- The whole recorded history of one metric of one symbol: every sample
ever appended, pushed through the capacity-60 deque in order. -/
def record_history (xs : List (Option ℚ)) : List (Option ℚ) :=
  xs.foldl (dequeAppend 60) []

end LongBot

namespace SignalBot

/-- src/signal_bot.py `calculate_change_with_emoji`: guards a zero
baseline with `"N/A"`, otherwise computes the percentage change and picks
the marker by its sign. -/
def calculate_change_with_emoji (current_value previous_value : ℚ) : String :=
  if previous_value = 0 then "N/A"
  else
    let change := (current_value - previous_value) / previous_value * 100
    if change > 0 then "🟩" ++ fmt3 change ++ "%"
    else if change < 0 then "🟥" ++ fmt3 change ++ "%"
    else "⬜0.000%"

/-- src/signal_bot.py line 231: the 24h price-change line of the update
message, with its hardcoded red (down) marker; `s` is the interpolated
rendering of `price_change_24h` (a number, or the string `"N/A"` when the
price fetch failed). -/
def price_change_24h_line (s : String) : String :=
  "└ 🟥" ++ s ++ "% (24h)\n\n"

end SignalBot

/-- Follows the spec's words (§4.1): `changeSince` returns
`(latest - value_at(latest-offset)) / value_at(latest-offset) * 100`,
and unavailable when fewer than `offset+1` samples exist or the
denominator is zero. -/
def changeSince_spec (h : List ℚ) (off : Nat) : Option ℚ :=
  if h.length < off + 1 then none
  else
    match h[h.length - 1]?, h[h.length - 1 - off]? with
    | some latest, some base =>
      if base = 0 then none else some ((latest - base) / base * 100)
    | _, _ => none

/-- The tracked-instrument universe: the symbol set plus the per-symbol
sample stores (association list from symbol to its window). -/
structure UniverseState where
  tracked : List String
  stores : List (String × List ℚ)
deriving DecidableEq, Repr

/-- Modelled from the spec: the repository hardcodes its `SYMBOLS` list
and ships no refresh implementation, so §4.4's
`refresh(listing, validSet)` is modelled from the spec's words — keep the
listing symbols that end with the quote-currency suffix, have 24h quote
volume below the ceiling and belong to the valid set; reset every store;
on a failed listing call (`none`) leave the previous state untouched. -/
def refresh (quoteSuffix : String) (volumeCeiling : ℚ)
    (listing : Option (List (String × ℚ))) (validSet : List String)
    (prev : UniverseState) : UniverseState :=
  match listing with
  | none => prev
  | some l =>
    let tracked := (l.filter fun p =>
      p.1.endsWith quoteSuffix && decide (p.2 < volumeCeiling)
        && validSet.contains p.1).map Prod.fst
    ⟨tracked, tracked.map fun s => (s, [])⟩

/-! ## Helper lemmas -/

/-- A value found by association-list lookup is among the dict's values. -/
theorem lookup_mem_snd {β : Type} {k : String} {l : List (String × β)} {v : β}
    (h : l.lookup k = some v) : v ∈ l.map Prod.snd := by
  induction l with
  | nil => simp [List.lookup] at h
  | cons p t ih =>
    obtain ⟨a, b⟩ := p
    rw [List.lookup] at h
    cases hk : (k == a) with
    | true =>
      rw [hk] at h
      simp at h
      simp [h]
    | false =>
      rw [hk] at h
      rw [List.map_cons]
      exact List.mem_cons_of_mem _ (ih h)

/-- The OI condition of `generate_signal` is unsatisfiable: it demands
every OI value negative while the `"5m"` value exceeds `3/2`. -/
theorem oi_condition_false (m : ChangeSet) : LongBot.oi_condition m = false := by
  unfold LongBot.oi_condition
  cases hall : LongBot.allNegative m with
  | false => simp
  | true =>
    simp only [Bool.true_and]
    unfold LongBot.thresholdCheck
    cases h5 : m.lookup "5m" with
    | none => rfl
    | some v =>
      cases v with
      | none => rfl
      | some q =>
        have hm : (some q : Option ℚ) ∈ m.map Prod.snd := lookup_mem_snd h5
        obtain ⟨p, hp, hps⟩ := List.mem_map.mp hm
        unfold LongBot.allNegative at hall
        rw [List.all_eq_true] at hall
        have hq := hall p hp
        rw [hps] at hq
        simp at hq
        show decide (q > 3/2) = false
        rw [decide_eq_false]
        intro hgt
        linarith

/-! ## Claims -/

/-- C1: for every combination of OI, price and volume change sets and
every current price, the evaluator's OI condition is unsatisfiable (all
entries present and negative yet the `"5m"` entry above `1.5`), so
`generate_signal` returns no signal. -/
theorem c1_generate_signal_always_none (symbol : String)
    (current_price : Option ℚ) (oi_changes price_changes volume_changes : ChangeSet) :
    LongBot.generate_signal symbol current_price oi_changes price_changes volume_changes
      = .ok none := by
  unfold LongBot.generate_signal
  rw [oi_condition_false]
  simp

/-- C2: the spec's trigger scenario — OI changes all negative with
`5m = -2`, price changes all negative with `5m = -1.5`, volume changes
all `≥ 0`, current price `100` — does NOT trigger on the code: the OI
comparison `oi_changes["5m"] > 1.5` is false for `-2`, so
`generate_signal` returns `None` instead of the claimed signal with
stop-loss `98.0` and take-profit `104.0`. -/
theorem c2_spec_scenario_yields_no_signal :
    LongBot.generate_signal "HFTUSDT" (some 100)
      [("1m", some (-2)), ("5m", some (-2)), ("15m", some (-3)),
       ("1h", some (-4)), ("24h", some (-5))]
      [("1m", some (-1)), ("5m", some (-3/2)), ("15m", some (-2)),
       ("1h", some (-2)), ("24h", some (-2))]
      [("1m", some 0), ("5m", some 1), ("15m", some 2), ("1h", some 3)]
      = .ok none := by
  unfold LongBot.generate_signal
  rw [oi_condition_false]
  simp

/-- C3: whenever some entry of the OI change set is unavailable (`none`)
or `≥ 0`, `generate_signal` does not trigger, for every price change set,
volume change set and price. -/
theorem c3_no_signal_on_missing_or_nonneg_oi (symbol : String)
    (current_price : Option ℚ) (oi_changes price_changes volume_changes : ChangeSet)
    (k : String) (v : Option ℚ) (hmem : (k, v) ∈ oi_changes)
    (hbad : v = none ∨ ∃ q, v = some q ∧ 0 ≤ q) :
    LongBot.generate_signal symbol current_price oi_changes price_changes volume_changes
      = .ok none := by
  unfold LongBot.generate_signal
  have hneg : LongBot.allNegative oi_changes = false := by
    unfold LongBot.allNegative
    rw [List.all_eq_false]
    refine ⟨(k, v), hmem, ?_⟩
    rcases hbad with h | ⟨q, h, hq⟩ <;> rw [h]
    · simp
    · simp only [decide_eq_true_eq]
      intro hlt
      linarith
  unfold LongBot.oi_condition
  rw [hneg]
  simp

/-- Witness for C3 at the concrete OI set `[("5m", some 2)]`. -/
theorem c3_witness :
    (("5m", (some 2 : Option ℚ)) ∈ ([("5m", some 2)] : ChangeSet)
      ∧ ((some 2 : Option ℚ) = none ∨ ∃ q, (some 2 : Option ℚ) = some q ∧ 0 ≤ q))
    ∧ LongBot.generate_signal "BTCUSDT" (some 1) [("5m", some 2)] [] [] = .ok none :=
  ⟨⟨List.mem_singleton.mpr rfl, Or.inr ⟨2, rfl, by decide⟩⟩,
   c3_no_signal_on_missing_or_nonneg_oi "BTCUSDT" (some 1) _ _ _ "5m" (some 2)
     (List.mem_singleton.mpr rfl) (Or.inr ⟨2, rfl, by decide⟩)⟩

/-- C4: the change lines labelled `"5m"`/`"15m"`/`"1h"` do not implement
offset-5/15/60 `changeSince` semantics.  With the five-sample history
`[1,2,3,4,5]`, an offset-5 change needs 6 samples and is unavailable per
the spec, but the code's `"5m"` line (`h[-5]` guarded by `len(h) >= 5`)
computes `400`: it uses the baseline only 4 samples back.  The `"1m"`
line (`h[-2]`, guard `len >= 2`) does agree with offset-1 semantics,
yielding `25` on the same history, like `changeSince` at offset 1. -/
theorem c4_label_offset_mismatch :
    LongBot.pyChange [some 1, some 2, some 3, some 4, some 5] (some 5) 5 = .ok (some 400)
    ∧ changeSince_spec [1, 2, 3, 4, 5] 5 = none
    ∧ LongBot.pyChange [some 1, some 2, some 3, some 4, some 5] (some 5) 2 = .ok (some 25)
    ∧ changeSince_spec [1, 2, 3, 4, 5] 1 = some 25 := by
  refine ⟨?_, ?_, ?_, ?_⟩
  · norm_num [LongBot.pyChange, LongBot.negIdx]
  · norm_num [changeSince_spec]
  · norm_num [LongBot.pyChange, LongBot.negIdx]
  · norm_num [changeSince_spec]

/-- C5: on a zero baseline, long_bot's inline change computation raises
`ZeroDivisionError` instead of returning unavailable — here the history
holds `0.0` followed by the fresh price `100.0` and the `"1m"` line
divides by `h[-2] = 0`.  signal_bot's `calculate_change_with_emoji` does
guard the zero baseline, returning `"N/A"`. -/
theorem c5_zero_baseline_divides :
    LongBot.pyChange [some 0, some 100] (some 100) 2 = .error "ZeroDivisionError"
    ∧ SignalBot.calculate_change_with_emoji 100 0 = "N/A" := by
  constructor
  · norm_num [LongBot.pyChange, LongBot.negIdx]
  · rfl

/-- C6: a failed price fetch does not degrade to "rule does not trigger":
with one prior recorded price and `get_price_data` returning an empty
dict, the appended `None` makes the `"1m"` change line raise `TypeError`,
aborting the evaluation pass (and, in the source, the unguarded
`while True` monitoring loop). -/
theorem c6_fetch_failure_raises :
    LongBot.monitorStep "HFTUSDT" ⟨some (-1), some (-1), some (-1), some (-1), none, some 50⟩
      [some 100] [some 50] = .error "TypeError" := by
  rfl

/-- Appending to a full bounded deque drops the front element: one step
of the capacity-`cap` window invariant. -/
theorem dequeAppend_drop {α : Type} (cap : Nat) (hcap : 0 < cap) (xs : List α) (x : α) :
    LongBot.dequeAppend cap (xs.drop (xs.length - cap)) x
      = (xs ++ [x]).drop (xs.length + 1 - cap) := by
  unfold LongBot.dequeAppend
  by_cases hc : cap ≤ xs.length
  · rw [if_pos (by simp; omega)]
    have h1 : (xs.drop (xs.length - cap) ++ [x]).length - cap = 1 := by simp; omega
    rw [h1]
    rw [List.drop_append_of_le_length (by simp; omega)]
    rw [List.drop_drop]
    rw [List.drop_append_of_le_length (by omega)]
    congr 2
    omega
  · rw [if_neg (by simp; omega)]
    have h0 : xs.length - cap = 0 := by omega
    have h0' : xs.length + 1 - cap = 0 := by omega
    rw [h0, h0']
    simp

/-- Feeding any sample sequence through a capacity-`cap` deque keeps
exactly the last `cap` samples, in order. -/
theorem foldl_dequeAppend {α : Type} (cap : Nat) (hcap : 0 < cap) (xs : List α) :
    xs.foldl (LongBot.dequeAppend cap) [] = xs.drop (xs.length - cap) := by
  induction xs using List.reverseRecOn with
  | nil => simp
  | append_singleton xs x ih =>
    rw [List.foldl_append, List.foldl_cons, List.foldl_nil, ih,
      dequeAppend_drop cap hcap, List.length_append, List.length_singleton]

/-- C7: for every sequence of recorded samples, the capacity-60 sample
store never exceeds 60 entries; after `60 + k` insertions the oldest `k`
samples are evicted FIFO (the store is exactly the input with its first
`k` elements dropped); and a change computation whose deque index exceeds
the retained history returns unavailable. -/
theorem c7_store_capacity_fifo (xs : List (Option ℚ)) (k off : Nat) (cur : Option ℚ) :
    (LongBot.record_history xs).length ≤ 60
    ∧ (xs.length = 60 + k → LongBot.record_history xs = xs.drop k)
    ∧ ((LongBot.record_history xs).length < off →
        LongBot.pyChange (LongBot.record_history xs) cur off = .ok none) := by
  refine ⟨?_, ?_, ?_⟩
  · unfold LongBot.record_history
    rw [foldl_dequeAppend 60 (by norm_num)]
    simp
    omega
  · intro h
    unfold LongBot.record_history
    rw [foldl_dequeAppend 60 (by norm_num), h]
    congr 1
    omega
  · intro h
    unfold LongBot.pyChange
    rw [if_neg (by omega)]

set_option maxRecDepth 4000 in
/-- Witness for C7: 61 inserted samples leave a 60-sample store equal to
the input minus its oldest element, and offset 100 is unavailable. -/
theorem c7_witness :
    ((List.replicate 61 (some (1:ℚ))).length = 60 + 1
      ∧ (LongBot.record_history (List.replicate 61 (some 1))).length < 100)
    ∧ ((LongBot.record_history (List.replicate 61 (some 1))).length ≤ 60
       ∧ LongBot.record_history (List.replicate 61 (some 1)) = (List.replicate 61 (some 1)).drop 1
       ∧ LongBot.pyChange (LongBot.record_history (List.replicate 61 (some 1))) none 100 = .ok none) :=
  ⟨⟨by decide, by decide⟩,
   let h := c7_store_capacity_fifo (List.replicate 61 (some 1)) 1 100 none
   ⟨h.1, h.2.1 (by decide), h.2.2 (by decide)⟩⟩

/-- C8: `calculate_change_with_emoji` does pick the marker solely by sign
(up for positive, down for negative, neutral for zero, bare `"N/A"` when
unavailable) — but the rule is not uniform across every alert line: the
24h price-change line of signal_bot's update message hardcodes the red
(down) marker, so a positive 24h change of `+3` is rendered with the down
marker, and an unavailable 24h value is rendered as `🟥N/A%` rather than
a bare `"N/A"`. -/
theorem c8_marker_not_uniform :
    LongBot.calculate_change_with_emoji none = "N/A"
    ∧ LongBot.calculate_change_with_emoji (some 3) = "🟩3.000%"
    ∧ LongBot.calculate_change_with_emoji (some (-2)) = "🟥-2.000%"
    ∧ LongBot.calculate_change_with_emoji (some 0) = "⬜0.000%"
    ∧ SignalBot.calculate_change_with_emoji 103 100 = "🟩3.000%"
    ∧ SignalBot.price_change_24h_line (fmt3 3) = "└ 🟥3.000% (24h)\n\n"
    ∧ SignalBot.price_change_24h_line "N/A" = "└ 🟥N/A% (24h)\n\n" := by
  refine ⟨rfl, ?_, ?_, ?_, ?_, ?_, rfl⟩
  · norm_num [LongBot.calculate_change_with_emoji, fmt3, pad3]; rfl
  · norm_num [LongBot.calculate_change_with_emoji, fmt3, pad3]; rfl
  · norm_num [LongBot.calculate_change_with_emoji]
  · norm_num [SignalBot.calculate_change_with_emoji, fmt3, pad3]; rfl
  · norm_num [SignalBot.price_change_24h_line, fmt3, pad3]; rfl

/-- Looking up a symbol in a freshly reset store map yields the empty
window exactly for tracked symbols. -/
theorem lookup_map_const (c : List ℚ) (l : List String) (s : String) :
    ((l.map fun t => (t, c)).lookup s) = if s ∈ l then some c else none := by
  induction l with
  | nil => simp [List.lookup]
  | cons a t ih =>
    rw [List.map_cons, List.lookup]
    cases hk : (s == a) with
    | true =>
      have hs : s = a := eq_of_beq hk
      simp [hs]
    | false =>
      have hs : s ≠ a := ne_of_beq_false hk
      change List.lookup s (t.map fun t => (t, c)) = _
      rw [ih]
      simp [List.mem_cons, hs]

/-- C9 (spec-modelled: the repository hardcodes `SYMBOLS` and ships no
refresh code): a refresh with a successful listing tracks exactly the
symbols that end with the quote suffix, have 24h quote volume below the
ceiling and are in the valid set; every tracked symbol's store is reset
to the empty window and dropped symbols have no store at all; a failed
listing call leaves the previous universe and stores untouched. -/
theorem c9_refresh_contract (quoteSuffix : String) (volumeCeiling : ℚ)
    (l : List (String × ℚ)) (validSet : List String) (prev : UniverseState) (s : String) :
    (s ∈ (refresh quoteSuffix volumeCeiling (some l) validSet prev).tracked
      ↔ ∃ v, (s, v) ∈ l ∧ s.endsWith quoteSuffix = true ∧ v < volumeCeiling ∧ s ∈ validSet)
    ∧ ((refresh quoteSuffix volumeCeiling (some l) validSet prev).stores.lookup s
        = if s ∈ (refresh quoteSuffix volumeCeiling (some l) validSet prev).tracked
          then some [] else none)
    ∧ refresh quoteSuffix volumeCeiling none validSet prev = prev := by
  refine ⟨?_, ?_, rfl⟩
  · unfold refresh
    simp only [List.mem_map, List.mem_filter]
    constructor
    · rintro ⟨⟨a, v⟩, ⟨hmem, hpred⟩, hfst⟩
      simp only at hfst
      subst hfst
      simp only [Bool.and_eq_true, decide_eq_true_eq] at hpred
      exact ⟨v, hmem, hpred.1.1, hpred.1.2, List.elem_iff.mp hpred.2⟩
    · rintro ⟨v, hmem, hends, hlt, hval⟩
      refine ⟨(s, v), ⟨hmem, ?_⟩, rfl⟩
      simp only [Bool.and_eq_true, decide_eq_true_eq]
      exact ⟨⟨hends, hlt⟩, List.elem_iff.mpr hval⟩
  · unfold refresh
    simp only []
    rw [lookup_map_const]

/-- C10: in every evaluation cycle, the OI ChangeSet handed to the
evaluator maps `"1m"` to the very value stored under `"5m"` (the
1-minute OI change is never computed independently), so its "all horizons
negative" check collapses to the four distinct horizons. -/
theorem c10_oi_1m_aliases_5m (a b c d : Option ℚ) :
    (LongBot.mk_oi_changes a b c d).lookup "1m" = (LongBot.mk_oi_changes a b c d).lookup "5m"
    ∧ LongBot.allNegative (LongBot.mk_oi_changes a b c d)
        = (LongBot.isNeg a && LongBot.isNeg b && LongBot.isNeg c && LongBot.isNeg d) := by
  constructor
  · rfl
  · show ((LongBot.isNeg a && (LongBot.isNeg a && (LongBot.isNeg b
      && (LongBot.isNeg c && (LongBot.isNeg d && true))))) = _)
    cases LongBot.isNeg a <;> cases LongBot.isNeg b <;> cases LongBot.isNeg c
      <;> cases LongBot.isNeg d <;> rfl
